import Mathlib

/-!
Shallow embedding of the taskrunner worker pool (package taskrunner).

The coordinator (TaskRunner) is modelled as a record; Start, Stop and the
synchronous part of Run are sequential functions on that record, which is
faithful because the source guards them with a read/write mutex (Start and
Stop take the exclusive side, Run the shared side).  Go channels are
modelled by allocation identifiers plus, for the capacity-1 result channel
of a task wrapper, an explicit `Option taskResult` buffer.  Each Go
`select` race is resolved by an explicit oracle parameter (the scheduler
choice); a branch that is not ready yields `none`, the model of blocking.
Start and Stop additionally emit an event trace recording the order of
their side effects (state transition, channel allocation and close,
wait-group operations, worker launches).
-/

namespace Taskrunner

/-- Model of a Go channel identity: an allocation number from the heap. -/
abbrev ChanId := Nat

/-- Model of Go `interface\x7b\x7d` values carried by tasks: nil or an opaque
payload. -/
abbrev GoValue := Option Nat

/-- Model of Go `error` values of the package.  The four library errors are
the ones declared at the top of taskrunner.go; `errString` models any other
`errors.New` value (option-validation errors, caller task errors). -/
inductive GoError where
  | errTimeoutExceeded
  | errRunnerNotStarted
  | errRunnerAlreadyStarted
  | errRunnerAlreadyStopped
  | errString (msg : String)
  deriving DecidableEq, Repr

/-- Default for the TaskRunner: const maxWorkers = 4. -/
def maxWorkers : Int := 4

/-- State enum: stoppedState uint32 = iota. -/
def stoppedState : Nat := 0

/-- State enum: startedState = 1. -/
def startedState : Nat := 1

/-- taskResult wraps the task result: res interface\x7b\x7d together with err
error (none models a nil error). -/
structure taskResult where
  res : GoValue
  err : Option GoError
  deriving DecidableEq, Repr

/-- The TaskRunner record.  Fields tasks, exit, state, maxWorkers are those
of the source struct; wgCount models the sync.WaitGroup counter; the four
metric fields are the ones assigned by the options in options.go
(taskCounter, unhandledPromisesGauge, workersGauge, averageTaskTime), each
a nil-able external handle; nextChanId is model bookkeeping for the heap
allocator behind `make(chan ...)`.  The mutex is not a field: it is
modelled by the functions below being sequential. -/
structure TaskRunner where
  tasks : Option ChanId := none
  exit : Option ChanId := none
  wgCount : Nat := 0
  state : Nat := stoppedState
  maxWorkers : Int := 0
  taskCounter : Option Nat := none
  unhandledPromisesGauge : Option Nat := none
  workersGauge : Option Nat := none
  averageTaskTime : Option Nat := none
  nextChanId : Nat := 0
  deriving DecidableEq, Repr

/-- isRunning checks the current state of the TaskRunner. -/
def isRunning (p : TaskRunner) : Bool :=
  p.state == startedState

/-- A functional configuration option: func(r *TaskRunner) error.  Returns
the updated runner or the validation error. -/
def GoOption := TaskRunner → Except GoError TaskRunner

/-- OptionMaxGoroutines configures the number of workers; rejects n <= 0. -/
def OptionMaxGoroutines (n : Int) : GoOption := fun r =>
  if n ≤ 0 then
    Except.error (GoError.errString "number of goroutines must be postive")
  else
    Except.ok { r with maxWorkers := n }

/-- OptionTaskCounter installs a metrics.Counter; rejects a nil handle. -/
def OptionTaskCounter (ctr : Option Nat) : GoOption := fun r =>
  match ctr with
  | none => Except.error (GoError.errString "counter must be non-nil")
  | some c => Except.ok { r with taskCounter := some c }

/-- OptionUnhandledPromisesGauge installs a metrics.Gauge; rejects nil. -/
def OptionUnhandledPromisesGauge (gauge : Option Nat) : GoOption := fun r =>
  match gauge with
  | none => Except.error (GoError.errString "gauge must be non-nil")
  | some g => Except.ok { r with unhandledPromisesGauge := some g }

/-- OptionWorkersGauge installs a metrics.Gauge; rejects nil. -/
def OptionWorkersGauge (gauge : Option Nat) : GoOption := fun r =>
  match gauge with
  | none => Except.error (GoError.errString "gauge must be non-nil")
  | some g => Except.ok { r with workersGauge := some g }

/-- OptionTaskTimeHistogram installs a metrics.Histogram; rejects nil. -/
def OptionTaskTimeHistogram (histogram : Option Nat) : GoOption := fun r =>
  match histogram with
  | none => Except.error (GoError.errString "histogram must be non-nil")
  | some h => Except.ok { r with averageTaskTime := some h }

/-- The option loop of NewTaskRunner: apply each option in order; the first
option that returns an error aborts with that error. -/
def applyOptions : List GoOption → TaskRunner → Except GoError TaskRunner
  | [], p => Except.ok p
  | opt :: rest, p =>
      match opt p with
      | Except.error e => Except.error e
      | Except.ok q => applyOptions rest q

/-- NewTaskRunner creates a TaskRunner: allocates a tasks channel and an
exit channel (fresh ids 0 and 1), sets state to stoppedState and
maxWorkers to the default, then applies the options in order. -/
def NewTaskRunner (options : List GoOption) : Except GoError TaskRunner :=
  applyOptions options
    { tasks := some 0
      exit := some 1
      state := stoppedState
      maxWorkers := Taskrunner.maxWorkers
      nextChanId := 2 }

/-- Events recording the order of side effects of Start and Stop. -/
inductive Event where
  | setState (s : Nat)
  | makeChan (c : ChanId)
  | wgAdd (n : Nat)
  | goWorker
  | closeChan (c : ChanId)
  | wgWait
  deriving DecidableEq, Repr

/-- Result of a Start or Stop call: the runner after the call (the receiver
is mutated in place in Go), the trace of side effects in order, and the
returned error (none on success). -/
structure StepResult where
  runner : TaskRunner
  events : List Event
  err : Option GoError
  deriving DecidableEq, Repr

/-- Start prepares the TaskRunner: under the exclusive lock, fails with
errRunnerAlreadyStarted if already running (before any mutation);
otherwise sets state to startedState, allocates a fresh tasks channel and
a fresh exit channel, adds maxWorkers to the wait group and launches
maxWorkers worker goroutines.  The Go loop `for i := 0; i < p.maxWorkers`
performs `p.maxWorkers.toNat` iterations. -/
def Start (p : TaskRunner) : StepResult :=
  if isRunning p then
    ⟨p, [], some GoError.errRunnerAlreadyStarted⟩
  else
    let tasksChan : ChanId := p.nextChanId
    let exitChan : ChanId := p.nextChanId + 1
    let n : Nat := p.maxWorkers.toNat
    ⟨{ p with
        state := startedState
        tasks := some tasksChan
        exit := some exitChan
        nextChanId := p.nextChanId + 2
        wgCount := p.wgCount + n },
      [Event.setState startedState, Event.makeChan tasksChan,
       Event.makeChan exitChan, Event.wgAdd n]
        ++ List.replicate n Event.goWorker,
      none⟩

/-- Stop shuts the runner down: under the exclusive lock, fails with
errRunnerNotStarted if not running (before any mutation); otherwise sets
state to stoppedState, closes the exit channel, waits for every worker to
exit (the wait-group counter reaches 0), then closes the tasks channel,
and only then returns success. -/
def Stop (p : TaskRunner) : StepResult :=
  if isRunning p then
    ⟨{ p with state := stoppedState, wgCount := 0 },
      [Event.setState stoppedState]
        ++ (match p.exit with
            | some c => [Event.closeChan c]
            | none => [])
        ++ [Event.wgWait]
        ++ (match p.tasks with
            | some c => [Event.closeChan c]
            | none => []),
      none⟩
  else
    ⟨p, [], some GoError.errRunnerNotStarted⟩

/-- The promise closure returned by Run, identified by which of the three
return sites of Run produced it. -/
inductive Promise where
  | notStartedPromise
  | waitPromise
  | timeoutPromise
  deriving DecidableEq, Repr

/-- Snapshot of the world a waiting promise observes when invoked: the
contents of the capacity-1 result channel of its wrapper, and whether the
caller context is done. -/
structure PromiseEnv where
  chanContents : Option taskResult
  ctxDone : Bool
  deriving DecidableEq, Repr

/-- Oracle for the select inside the waiting promise closure. -/
inductive SelectPick where
  | chanFirst
  | ctxFirst
  deriving DecidableEq, Repr

/-- Invoking a promise.  The notStarted and timeout promises return their
error immediately for every environment and every oracle.  The waiting
promise runs `select` on the result channel and ctx.Done(): the channel
branch returns (result.res, result.err) and is ready only when the channel
holds a result; the context branch returns (nil, errTimeoutExceeded) and
is ready only when the context is done; `none` models the closure still
blocking because the picked branch is not ready. -/
def Promise.invoke : Promise → PromiseEnv → SelectPick →
    Option (GoValue × Option GoError)
  | Promise.notStartedPromise, _, _ =>
      some (none, some GoError.errRunnerNotStarted)
  | Promise.timeoutPromise, _, _ =>
      some (none, some GoError.errTimeoutExceeded)
  | Promise.waitPromise, env, SelectPick.chanFirst =>
      match env.chanContents with
      | some r => some (r.res, r.err)
      | none => none
  | Promise.waitPromise, env, SelectPick.ctxFirst =>
      if env.ctxDone then some (none, some GoError.errTimeoutExceeded)
      else none

/-- Oracle for the select inside Run racing the dispatch send against the
caller context. -/
inductive RunPick where
  | workerAccepts
  | ctxCancelled
  deriving DecidableEq, Repr

/-- What Run returned: the promise, and whether the wrapper was sent on the
dispatch channel (a worker committed to the task). -/
structure RunOutcome where
  promise : Promise
  dispatched : Bool
  deriving DecidableEq, Repr

/-- Run under the shared lock.  If the runner is not running, it returns the
notStarted promise at once, never touching the dispatch channel.
Otherwise it builds a wrapper with a fresh empty capacity-1 result channel
and runs `select`: sending the wrapper on the dispatch channel (ready only
when a worker is ready to receive, `workerReady`) against ctx.Done()
(ready only when `ctxDone`); the send branch returns the waiting promise,
the context branch the immediate-timeout promise; `none` models Run still
blocked because the picked branch is not ready. -/
def Run (p : TaskRunner) (workerReady ctxDone : Bool) (pick : RunPick) :
    Option RunOutcome :=
  if !(isRunning p) then
    some ⟨Promise.notStartedPromise, false⟩
  else
    match pick with
    | RunPick.workerAccepts =>
        if workerReady then some ⟨Promise.waitPromise, true⟩ else none
    | RunPick.ctxCancelled =>
        if ctxDone then some ⟨Promise.timeoutPromise, false⟩ else none

/-- Oracle for the delivery select inside the worker loop. -/
inductive DeliverPick where
  | deliver
  | abandon
  deriving DecidableEq, Repr

/-- Outcome of a worker handling one dequeued wrapper: the contents of the
wrapper result channel afterwards, and the fact that the worker control
returns to the head of its loop (ready for new work). -/
structure HandleOutcome where
  chanAfter : Option taskResult
  loopsBack : Bool
  deriving DecidableEq, Repr

/-- A worker handling one wrapper it alone dequeued from the dispatch
channel: it runs the task (producing `result`), then runs `select` between
sending `result` on the wrapper capacity-1 result channel (ready only when
the buffer is empty) and the wrapper ctx.Done() (ready only when the
wrapper context is done, in which case delivery is abandoned and the
channel is left as it was).  Either way the worker loops back; `none`
models the worker blocked on a branch that is not ready. -/
def handleTask (result : taskResult) (chanBefore : Option taskResult)
    (ctxDone : Bool) (pick : DeliverPick) : Option HandleOutcome :=
  match pick with
  | DeliverPick.deliver =>
      match chanBefore with
      | none => some ⟨some result, true⟩
      | some _ => none
  | DeliverPick.abandon =>
      if ctxDone then some ⟨chanBefore, true⟩ else none

/-- Modelled from the spec: the metrics-instrumented worker body is not in
the sources (the TaskRunner struct of taskrunner.go carries no metric
fields and its worker loop never touches a counter, while options.go
assigns r.taskCounter and the spec says the configured counter is
"incremented per completed task").  This definition extends handleTask
with the task counter hook: when a counter handle is configured it is
incremented exactly once per completed task handling, and the handling
itself is exactly handleTask. -/
def handleTaskCounted (counter : Option Nat) (count : Nat)
    (result : taskResult) (chanBefore : Option taskResult)
    (ctxDone : Bool) (pick : DeliverPick) : Option (HandleOutcome × Nat) :=
  (handleTask result chanBefore ctxDone pick).map
    (fun o => (o, match counter with
                  | some _ => count + 1
                  | none => count))

/-- The configuration options exported by the library, as data, so that
construction can be quantified over every well-formed option list. -/
inductive LibOption where
  | maxGoroutines (n : Int)
  | taskCounter (c : Option Nat)
  | unhandledPromises (g : Option Nat)
  | workers (g : Option Nat)
  | taskTimeHistogram (h : Option Nat)
  deriving DecidableEq, Repr

/-- Interpretation of a library option as the functional option of the
source. -/
def LibOption.toGoOption : LibOption → GoOption
  | LibOption.maxGoroutines n => OptionMaxGoroutines n
  | LibOption.taskCounter c => OptionTaskCounter c
  | LibOption.unhandledPromises g => OptionUnhandledPromisesGauge g
  | LibOption.workers g => OptionWorkersGauge g
  | LibOption.taskTimeHistogram h => OptionTaskTimeHistogram h

/-- The worker count configured by a list of library options: the last
maxGoroutines value supplied, or the default of 4. -/
def configuredWorkers (opts : List LibOption) : Int :=
  opts.foldl
    (fun acc o =>
      match o with
      | LibOption.maxGoroutines n => n
      | _ => acc)
    Taskrunner.maxWorkers

/-- A concrete runner as built by NewTaskRunner with worker count 7; used
to instantiate the theorems below on concrete inputs. -/
def sampleRunner7 : TaskRunner :=
  { tasks := some 0, exit := some 1, state := stoppedState,
    maxWorkers := 7, nextChanId := 2 }

/-- The runner after starting sampleRunner7. -/
def sampleStarted7 : TaskRunner := (Start sampleRunner7).runner

/-- Applying a concatenation of option lists runs the first list and, on
success, continues with the second from the updated runner. -/
theorem applyOptions_append (opts1 opts2 : List GoOption) (p : TaskRunner) :
    applyOptions (opts1 ++ opts2) p =
      match applyOptions opts1 p with
      | Except.ok q => applyOptions opts2 q
      | Except.error e => Except.error e := by
  induction opts1 generalizing p with
  | nil => rfl
  | cons o rest ih =>
      cases h : o p with
      | error e => simp [applyOptions, h]
      | ok q => simp [applyOptions, h, ih]

/-- The library options only validate and record configuration: a
successful pass leaves the lifecycle state, the channels and the
wait-group counter untouched and sets maxWorkers to the last worker count
supplied (or leaves it). -/
theorem applyLibOptions_fields (opts : List LibOption) (p q : TaskRunner)
    (h : applyOptions (opts.map LibOption.toGoOption) p = Except.ok q) :
    q.state = p.state ∧ q.tasks = p.tasks ∧ q.exit = p.exit ∧
    q.wgCount = p.wgCount ∧
    q.maxWorkers = opts.foldl
      (fun acc o =>
        match o with
        | LibOption.maxGoroutines n => n
        | _ => acc)
      p.maxWorkers := by
  induction opts generalizing p with
  | nil =>
      simp [applyOptions] at h
      simp [h]
  | cons o rest ih =>
      cases o with
      | maxGoroutines n =>
          by_cases hn : n ≤ 0
          · simp [applyOptions, LibOption.toGoOption, OptionMaxGoroutines,
              hn] at h
          · simp only [List.map, applyOptions, LibOption.toGoOption,
              OptionMaxGoroutines, hn, if_false] at h
            obtain ⟨hs, ht, he, hw, hm⟩ := ih _ h
            exact ⟨hs, ht, he, hw, hm⟩
      | taskCounter c =>
          cases c with
          | none =>
              simp [applyOptions, LibOption.toGoOption,
                OptionTaskCounter] at h
          | some c =>
              simp only [List.map, applyOptions, LibOption.toGoOption,
                OptionTaskCounter] at h
              obtain ⟨hs, ht, he, hw, hm⟩ := ih _ h
              exact ⟨hs, ht, he, hw, hm⟩
      | unhandledPromises g =>
          cases g with
          | none =>
              simp [applyOptions, LibOption.toGoOption,
                OptionUnhandledPromisesGauge] at h
          | some g =>
              simp only [List.map, applyOptions, LibOption.toGoOption,
                OptionUnhandledPromisesGauge] at h
              obtain ⟨hs, ht, he, hw, hm⟩ := ih _ h
              exact ⟨hs, ht, he, hw, hm⟩
      | workers g =>
          cases g with
          | none =>
              simp [applyOptions, LibOption.toGoOption,
                OptionWorkersGauge] at h
          | some g =>
              simp only [List.map, applyOptions, LibOption.toGoOption,
                OptionWorkersGauge] at h
              obtain ⟨hs, ht, he, hw, hm⟩ := ih _ h
              exact ⟨hs, ht, he, hw, hm⟩
      | taskTimeHistogram hh =>
          cases hh with
          | none =>
              simp [applyOptions, LibOption.toGoOption,
                OptionTaskTimeHistogram] at h
          | some hh =>
              simp only [List.map, applyOptions, LibOption.toGoOption,
                OptionTaskTimeHistogram] at h
              obtain ⟨hs, ht, he, hw, hm⟩ := ih _ h
              exact ⟨hs, ht, he, hw, hm⟩

/-- C7: worker counts n at least 1 are accepted and set the pool size to n;
n at most 0 is rejected with the validation error; options are applied in
order and the first failing option aborts construction with its error. -/
theorem c7_worker_count_validation (n : Int) (pre rest : List GoOption)
    (opt : GoOption) (p q : TaskRunner) (e : GoError) :
    (1 ≤ n → ∃ r, NewTaskRunner [OptionMaxGoroutines n] = Except.ok r ∧
        r.maxWorkers = n) ∧
    (n ≤ 0 → NewTaskRunner [OptionMaxGoroutines n] =
        Except.error (GoError.errString "number of goroutines must be postive")) ∧
    (applyOptions pre p = Except.ok q → opt q = Except.error e →
        applyOptions (pre ++ opt :: rest) p = Except.error e) := by
  refine ⟨?_, ?_, ?_⟩
  · intro hn
    have hn0 : ¬ n ≤ 0 := by omega
    refine ⟨{ tasks := some 0, exit := some 1, state := stoppedState,
              maxWorkers := n, nextChanId := 2 }, ?_, rfl⟩
    simp [NewTaskRunner, applyOptions, OptionMaxGoroutines, hn0]
  · intro hn
    simp [NewTaskRunner, applyOptions, OptionMaxGoroutines, hn]
  · intro h1 h2
    rw [applyOptions_append, h1]
    simp [applyOptions, h2]

/-- Witness for c7_worker_count_validation at n = 3 and n = 0. -/
theorem c7_witness :
    (∃ r, NewTaskRunner [OptionMaxGoroutines 3] = Except.ok r ∧
        r.maxWorkers = 3) ∧
    NewTaskRunner [OptionMaxGoroutines 0] =
      Except.error (GoError.errString "number of goroutines must be postive") ∧
    applyOptions ([] ++ OptionMaxGoroutines 0 :: []) sampleRunner7 =
      Except.error (GoError.errString "number of goroutines must be postive") :=
  ⟨(c7_worker_count_validation 3 [] [] (OptionMaxGoroutines 3) sampleRunner7
      sampleRunner7 GoError.errTimeoutExceeded).1 (by norm_num),
   (c7_worker_count_validation 0 [] [] (OptionMaxGoroutines 0) sampleRunner7
      sampleRunner7 GoError.errTimeoutExceeded).2.1 (by norm_num),
   (c7_worker_count_validation 0 [] []
      (OptionMaxGoroutines 0) sampleRunner7 sampleRunner7
      (GoError.errString "number of goroutines must be postive")).2.2
      rfl rfl⟩

/-- C10: construction with no options defaults the worker count to 4, and a
subsequent Start launches exactly 4 workers, all tracked by the wait
group. -/
theorem c10_default_worker_count :
    ∃ p, NewTaskRunner [] = Except.ok p ∧ p.maxWorkers = 4 ∧
      (Start p).events.count Event.goWorker = 4 ∧
      (Start p).runner.wgCount = 4 ∧ (Start p).err = none := by
  refine ⟨_, rfl, rfl, ?_, rfl, rfl⟩
  decide

/-- Counterexample to C8 as stated: construction with no options yields a
runner whose tasks channel and exit channel already exist (fresh channels
with ids 0 and 1), not absent handles. -/
theorem c8_counterexample :
    (NewTaskRunner []).toOption.map (fun p => (p.tasks, p.exit)) =
      some (some 0, some 1) ∧
    ¬ (NewTaskRunner []).toOption.map (fun p => (p.tasks, p.exit)) =
        some (none, none) := by
  constructor
  · rfl
  · decide

/-- C8 (amended): every successful construction from the library options
yields a Coordinator in the stopped state with the configured worker count
and a zero wait-group counter; the dispatch channel and exit signal are
already allocated at construction (fresh channels, replaced again by each
Start) rather than absent until the first Start. -/
theorem c8_construction_state (opts : List LibOption) (p : TaskRunner)
    (h : NewTaskRunner (opts.map LibOption.toGoOption) = Except.ok p) :
    p.state = stoppedState ∧ p.maxWorkers = configuredWorkers opts ∧
    p.tasks = some 0 ∧ p.exit = some 1 ∧ p.wgCount = 0 := by
  obtain ⟨hs, ht, he, hw, hm⟩ := applyLibOptions_fields opts _ p h
  refine ⟨?_, ?_, ?_, ?_, ?_⟩
  · simpa using hs
  · simpa [configuredWorkers] using hm
  · simpa using ht
  · simpa using he
  · simpa using hw

/-- Witness for c8_construction_state at the option list setting 7
workers. -/
theorem c8_witness :
    NewTaskRunner ([LibOption.maxGoroutines 7].map LibOption.toGoOption) =
      Except.ok sampleRunner7 ∧
    (sampleRunner7.state = stoppedState ∧
     sampleRunner7.maxWorkers = configuredWorkers [LibOption.maxGoroutines 7] ∧
     sampleRunner7.tasks = some 0 ∧ sampleRunner7.exit = some 1 ∧
     sampleRunner7.wgCount = 0) :=
  ⟨rfl, c8_construction_state [LibOption.maxGoroutines 7] sampleRunner7 rfl⟩

/-- C2: Start fails with errRunnerAlreadyStarted exactly when the state is
started, Stop fails with errRunnerNotStarted exactly when the state is
stopped, and in each failing case the whole coordinator record (state,
channels, exit signal, worker count, wait group) is returned unchanged and
no side effect occurs. -/
theorem c2_start_stop_failure (p : TaskRunner)
    (h : p.state = stoppedState ∨ p.state = startedState) :
    ((Start p).err = some GoError.errRunnerAlreadyStarted ↔
      p.state = startedState) ∧
    ((Stop p).err = some GoError.errRunnerNotStarted ↔
      p.state = stoppedState) ∧
    (p.state = startedState →
      Start p = ⟨p, [], some GoError.errRunnerAlreadyStarted⟩) ∧
    (p.state = stoppedState →
      Stop p = ⟨p, [], some GoError.errRunnerNotStarted⟩) := by
  rcases h with h | h <;>
    simp [Start, Stop, isRunning, h, stoppedState, startedState]

/-- Witness for c2_start_stop_failure at a concrete stopped runner. -/
theorem c2_witness :
    (sampleRunner7.state = stoppedState ∨
      sampleRunner7.state = startedState) ∧
    (((Start sampleRunner7).err = some GoError.errRunnerAlreadyStarted ↔
        sampleRunner7.state = startedState) ∧
     ((Stop sampleRunner7).err = some GoError.errRunnerNotStarted ↔
        sampleRunner7.state = stoppedState) ∧
     (sampleRunner7.state = startedState →
        Start sampleRunner7 =
          ⟨sampleRunner7, [], some GoError.errRunnerAlreadyStarted⟩) ∧
     (sampleRunner7.state = stoppedState →
        Stop sampleRunner7 =
          ⟨sampleRunner7, [], some GoError.errRunnerNotStarted⟩)) :=
  ⟨Or.inl rfl, c2_start_stop_failure sampleRunner7 (Or.inl rfl)⟩

/-- Counting goWorker events in the prefix of the Start trace gives 0: the
prefix holds only the state transition, the two channel allocations and
the wait-group add. -/
theorem count_goWorker_prelude (s : Nat) (c1 c2 : ChanId) (n : Nat) :
    List.count Event.goWorker
      [Event.setState s, Event.makeChan c1, Event.makeChan c2,
       Event.wgAdd n] = 0 := rfl

/-- C3: a successful Start launches exactly maxWorkers workers, all tracked
by the wait group, and a successful Stop performs, in this order: the
transition to stoppedState, closing the exit channel, waiting for every
worker to exit, closing the tasks channel, and only then returns
success. -/
theorem c3_start_stop_protocol (p q : TaskRunner)
    (hp : isRunning p = false) (hq : isRunning q = true)
    (hw : 1 ≤ p.maxWorkers)
    (ce ct : ChanId) (he : q.exit = some ce) (ht : q.tasks = some ct) :
    ((Start p).events.count Event.goWorker = p.maxWorkers.toNat ∧
     ((p.maxWorkers.toNat : Int) = p.maxWorkers) ∧
     Event.wgAdd p.maxWorkers.toNat ∈ (Start p).events ∧
     (Start p).runner.wgCount = p.wgCount + p.maxWorkers.toNat ∧
     (Start p).err = none) ∧
    Stop q = ⟨{ q with state := stoppedState, wgCount := 0 },
        [Event.setState stoppedState, Event.closeChan ce, Event.wgWait,
         Event.closeChan ct], none⟩ := by
  have hev : (Start p).events =
      [Event.setState startedState, Event.makeChan p.nextChanId,
       Event.makeChan (p.nextChanId + 1), Event.wgAdd p.maxWorkers.toNat]
        ++ List.replicate p.maxWorkers.toNat Event.goWorker := by
    simp [Start, hp]
  constructor
  · refine ⟨?_, ?_, ?_, ?_, ?_⟩
    · rw [hev, List.count_append, count_goWorker_prelude,
        List.count_replicate_self]
      omega
    · omega
    · rw [hev]
      simp
    · simp [Start, hp]
    · simp [Start, hp]
  · simp [Stop, hq, he, ht]

/-- Witness for c3_start_stop_protocol: sampleRunner7 started and then
stopped; the exit channel allocated by Start is 3 and the tasks channel
is 2. -/
theorem c3_witness :
    (isRunning sampleRunner7 = false ∧ isRunning sampleStarted7 = true ∧
     1 ≤ sampleRunner7.maxWorkers ∧ sampleStarted7.exit = some 3 ∧
     sampleStarted7.tasks = some 2) ∧
    (((Start sampleRunner7).events.count Event.goWorker =
        sampleRunner7.maxWorkers.toNat ∧
      ((sampleRunner7.maxWorkers.toNat : Int) = sampleRunner7.maxWorkers) ∧
      Event.wgAdd sampleRunner7.maxWorkers.toNat ∈
        (Start sampleRunner7).events ∧
      (Start sampleRunner7).runner.wgCount =
        sampleRunner7.wgCount + sampleRunner7.maxWorkers.toNat ∧
      (Start sampleRunner7).err = none) ∧
     Stop sampleStarted7 =
       ⟨{ sampleStarted7 with state := stoppedState, wgCount := 0 },
         [Event.setState stoppedState, Event.closeChan 3, Event.wgWait,
          Event.closeChan 2], none⟩) :=
  ⟨⟨by decide, by decide, by decide, by decide, by decide⟩,
   c3_start_stop_protocol sampleRunner7 sampleStarted7 (by decide)
     (by decide) (by decide) 3 2 (by decide) (by decide)⟩

/-- C1: on a started runner, every completed Run took exactly one branch of
the dispatch select: either a worker accepted the wrapper (the promise
then waits for a result or for cancellation, yielding errTimeoutExceeded
in the cancellation case), or the context was cancelled first (the promise
yields errTimeoutExceeded immediately); never both, and once the context
is done Run is never stuck with no completing branch. -/
theorem c1_run_outcomes (p : TaskRunner) (hp : isRunning p = true)
    (workerReady ctxDone : Bool) :
    (∀ pick o, Run p workerReady ctxDone pick = some o →
        (o = ⟨Promise.waitPromise, true⟩ ∧ pick = RunPick.workerAccepts ∧
          workerReady = true) ∨
        (o = ⟨Promise.timeoutPromise, false⟩ ∧
          pick = RunPick.ctxCancelled ∧ ctxDone = true)) ∧
    (∀ pick o, Run p workerReady ctxDone pick = some o →
        ¬ (o.dispatched = true ∧ o.promise = Promise.timeoutPromise)) ∧
    (ctxDone = true →
        Run p workerReady ctxDone RunPick.ctxCancelled =
          some ⟨Promise.timeoutPromise, false⟩ ∧
        (∀ env pick2, Promise.invoke Promise.timeoutPromise env pick2 =
          some (none, some GoError.errTimeoutExceeded))) ∧
    (workerReady = true →
        Run p workerReady ctxDone RunPick.workerAccepts =
          some ⟨Promise.waitPromise, true⟩ ∧
        (∀ r cd, Promise.invoke Promise.waitPromise ⟨some r, cd⟩
            SelectPick.chanFirst = some (r.res, r.err)) ∧
        (∀ ch, Promise.invoke Promise.waitPromise ⟨ch, true⟩
            SelectPick.ctxFirst =
          some (none, some GoError.errTimeoutExceeded))) ∧
    (ctxDone = true → ∃ pick o, Run p workerReady ctxDone pick = some o) := by
  refine ⟨?_, ?_, ?_, ?_, ?_⟩
  · intro pick o h
    cases pick with
    | workerAccepts =>
        cases hwr : workerReady with
        | false => simp [Run, hp, hwr] at h
        | true =>
            simp [Run, hp, hwr] at h
            exact Or.inl ⟨h.symm, rfl, rfl⟩
    | ctxCancelled =>
        cases hcd : ctxDone with
        | false => simp [Run, hp, hcd] at h
        | true =>
            simp [Run, hp, hcd] at h
            exact Or.inr ⟨h.symm, rfl, rfl⟩
  · intro pick o h
    cases pick <;> cases hwr : workerReady <;> cases hcd : ctxDone <;>
      simp_all [Run] <;> (subst h; simp)
  · intro h
    exact ⟨by simp [Run, hp, h], fun env pick2 => rfl⟩
  · intro h
    exact ⟨by simp [Run, hp, h], fun r cd => rfl, fun ch => rfl⟩
  · intro h
    exact ⟨RunPick.ctxCancelled, ⟨Promise.timeoutPromise, false⟩,
      by simp [Run, hp, h]⟩

/-- Witness for c1_run_outcomes on the started sample runner with a ready
worker and a done context. -/
theorem c1_witness :
    isRunning sampleStarted7 = true ∧
    Run sampleStarted7 true true RunPick.ctxCancelled =
      some ⟨Promise.timeoutPromise, false⟩ ∧
    Run sampleStarted7 true true RunPick.workerAccepts =
      some ⟨Promise.waitPromise, true⟩ :=
  ⟨by decide,
   ((c1_run_outcomes sampleStarted7 (by decide) true true).2.2.1 rfl).1,
   ((c1_run_outcomes sampleStarted7 (by decide) true true).2.2.2.1 rfl).1⟩

/-- C4: while the runner is stopped, Run returns at once for every oracle
and every readiness of workers or context, no wrapper is sent on the
dispatch channel, and the returned promise yields errRunnerNotStarted
immediately for every environment. -/
theorem c4_run_while_stopped (p : TaskRunner) (h : p.state = stoppedState)
    (workerReady ctxDone : Bool) (pick : RunPick) :
    Run p workerReady ctxDone pick =
      some ⟨Promise.notStartedPromise, false⟩ ∧
    (∀ env pick2, Promise.invoke Promise.notStartedPromise env pick2 =
        some (none, some GoError.errRunnerNotStarted)) := by
  refine ⟨?_, fun env pick2 => rfl⟩
  simp [Run, isRunning, h, stoppedState, startedState]

/-- Witness for c4_run_while_stopped at the stopped sample runner. -/
theorem c4_witness :
    sampleRunner7.state = stoppedState ∧
    (Run sampleRunner7 true true RunPick.workerAccepts =
        some ⟨Promise.notStartedPromise, false⟩ ∧
     (∀ env pick2, Promise.invoke Promise.notStartedPromise env pick2 =
        some (none, some GoError.errRunnerNotStarted))) :=
  ⟨rfl,
   c4_run_while_stopped sampleRunner7 rfl true true RunPick.workerAccepts⟩

/-- C5: whatever pair (value, error) the task execution returns, the worker
delivers exactly that pair into the fresh result channel and the promise,
resolving via the result channel, returns exactly that pair unmodified;
and the runner still accepts subsequent Run calls. -/
theorem c5_task_result_verbatim (v : GoValue) (e : Option GoError)
    (p : TaskRunner) (hp : isRunning p = true) (d cd : Bool) :
    handleTask ⟨v, e⟩ none d DeliverPick.deliver =
      some ⟨some ⟨v, e⟩, true⟩ ∧
    Promise.invoke Promise.waitPromise ⟨some ⟨v, e⟩, cd⟩
      SelectPick.chanFirst = some (v, e) ∧
    Run p true cd RunPick.workerAccepts =
      some ⟨Promise.waitPromise, true⟩ := by
  refine ⟨rfl, rfl, ?_⟩
  simp [Run, hp]

/-- Witness for c5_task_result_verbatim with a concrete failing task. -/
theorem c5_witness :
    isRunning sampleStarted7 = true ∧
    (handleTask ⟨some 5, some (GoError.errString "task failed")⟩ none false
        DeliverPick.deliver =
      some ⟨some ⟨some 5, some (GoError.errString "task failed")⟩, true⟩ ∧
    Promise.invoke Promise.waitPromise
      ⟨some ⟨some 5, some (GoError.errString "task failed")⟩, false⟩
      SelectPick.chanFirst = some (some 5, some (GoError.errString "task failed")) ∧
    Run sampleStarted7 true false RunPick.workerAccepts =
      some ⟨Promise.waitPromise, true⟩) :=
  ⟨by decide,
   c5_task_result_verbatim (some 5) (some (GoError.errString "task failed"))
     sampleStarted7 (by decide) false false⟩

/-- C6: a wrapper result channel, starting empty, ends a worker handling
with at most one result in it, namely the single attempted delivery of
that worker, which then loops back to accept new work; and when the
wrapper context is already done the worker abandons delivery without
blocking, leaving the channel empty. -/
theorem c6_at_most_one_result (result : taskResult) (ctxDone : Bool) :
    (∀ pick o, handleTask result none ctxDone pick = some o →
        (o.chanAfter = none ∨ o.chanAfter = some result) ∧
        o.loopsBack = true) ∧
    (ctxDone = true →
        handleTask result none true DeliverPick.abandon =
          some ⟨none, true⟩) := by
  constructor
  · intro pick o h
    cases pick with
    | deliver =>
        simp [handleTask] at h
        subst h
        exact ⟨Or.inr rfl, rfl⟩
    | abandon =>
        cases hcd : ctxDone with
        | false => simp [handleTask, hcd] at h
        | true =>
            simp [handleTask, hcd] at h
            subst h
            exact ⟨Or.inl rfl, rfl⟩
  · intro h
    rfl

/-- Witness for c6_at_most_one_result: abandonment with a done context
leaves the channel empty and the worker loops back. -/
theorem c6_witness :
    ((⟨none, true⟩ : HandleOutcome).chanAfter = none ∨
      (⟨none, true⟩ : HandleOutcome).chanAfter =
        some (⟨some 1, none⟩ : taskResult)) ∧
    (⟨none, true⟩ : HandleOutcome).loopsBack = true ∧
    handleTask ⟨some 1, none⟩ none true DeliverPick.abandon =
      some ⟨none, true⟩ :=
  ⟨((c6_at_most_one_result ⟨some 1, none⟩ true).1 DeliverPick.abandon
      ⟨none, true⟩ rfl).1,
   ((c6_at_most_one_result ⟨some 1, none⟩ true).1 DeliverPick.abandon
      ⟨none, true⟩ rfl).2,
   (c6_at_most_one_result ⟨some 1, none⟩ true).2 rfl⟩

/-- C9: with a configured task counter the counter advances by exactly one
per completed task handling, without one it stays put, and in either case
the handling itself (channel contents, looping back, blocking behavior) is
exactly that of the uninstrumented worker; moreover Run ignores the
metric fields entirely, so a configured hook cannot alter dispatch or
error semantics. -/
theorem c9_counter_pure_observer (counter : Option Nat) (count : Nat)
    (result : taskResult) (ch : Option taskResult) (d : Bool)
    (pick : DeliverPick) :
    (handleTaskCounted counter count result ch d pick).map Prod.fst =
      handleTask result ch d pick ∧
    (∀ c, counter = some c →
      (handleTaskCounted counter count result ch d pick).map Prod.snd =
        (handleTask result ch d pick).map (fun _ => count + 1)) ∧
    (counter = none →
      (handleTaskCounted counter count result ch d pick).map Prod.snd =
        (handleTask result ch d pick).map (fun _ => count)) ∧
    (∀ (q : TaskRunner) (c2 : Option Nat) (wr cd : Bool) (pk : RunPick),
      Run { q with taskCounter := c2 } wr cd pk = Run q wr cd pk) := by
  refine ⟨?_, ?_, ?_, ?_⟩
  · cases h : handleTask result ch d pick <;>
      simp [handleTaskCounted, h]
  · intro c hc
    subst hc
    cases h : handleTask result ch d pick <;>
      simp [handleTaskCounted, h]
  · intro hc
    subst hc
    cases h : handleTask result ch d pick <;>
      simp [handleTaskCounted, h]
  · intro q c2 wr cd pk
    rfl

/-- Witness for c9_counter_pure_observer with a configured counter. -/
theorem c9_witness :
    (handleTaskCounted (some 0) 5 ⟨none, none⟩ none false
        DeliverPick.deliver).map Prod.snd =
      (handleTask ⟨none, none⟩ none false DeliverPick.deliver).map
        (fun _ => 5 + 1) ∧
    (handleTaskCounted (some 0) 5 ⟨none, none⟩ none false
        DeliverPick.deliver).map Prod.fst =
      handleTask ⟨none, none⟩ none false DeliverPick.deliver ∧
    Run { sampleStarted7 with taskCounter := some 3 } true false
        RunPick.workerAccepts =
      Run sampleStarted7 true false RunPick.workerAccepts :=
  ⟨(c9_counter_pure_observer (some 0) 5 ⟨none, none⟩ none false
      DeliverPick.deliver).2.1 0 rfl,
   (c9_counter_pure_observer (some 0) 5 ⟨none, none⟩ none false
      DeliverPick.deliver).1,
   (c9_counter_pure_observer (some 0) 5 ⟨none, none⟩ none false
      DeliverPick.deliver).2.2.2 sampleStarted7 (some 3) true false
      RunPick.workerAccepts⟩

end Taskrunner
